import Mathlib

/-!
Shallow embedding of the frame-construction, checksum and encryption pipeline of
`src/vscpudp/udp.py` (`makeVscpFrame`, `encryptVscpFrame`), together with theorems
settling the spec claims about it.

Conventions of the embedding:
* `bytearray`s become `List Nat`; Python `frame[i] = v` becomes `List.set`, the Python
  slice `frame[a:b]` becomes `(frame.drop a).take (b - a)`.
* Reads of ctypes byte arrays (`e.guid[i]`, `e.data[i]`) become `List.getD _ i 0`;
  a ctypes array is zero-initialised, so indices beyond the caller-filled portion read 0.
* `datetime.datetime.utcnow()` is an external input and is passed as an explicit
  `UtcTime` argument `dt`.
* The PyCrypto AES-CBC cipher and the random 16-byte IV are external collaborators and
  are passed as explicit arguments (`cipher : key → iv → plaintext → ciphertext`, `iv`).
* `encryptVscpFrame` mutates its `frame` argument in Python (it appends padding bytes
  in place); the embedding returns a pair `(packet, frame after the call)` so that the
  effect on the caller's buffer is observable.
* The Python source is Python-2 style: `str(frame[1:])` is the raw bytes of
  `frame[1:]`, and `'\x5cx{:02X}'.format(x)` is the four ASCII characters
  backslash, `x`, and two uppercase hex digits.
-/

set_option maxRecDepth 100000

namespace VscpUdp

/-- Modelled from the spec: the position constants of the Packet Type 0 wire layout
(spec section 6 table).  In the source they are imported from the external `vscp`
module, which is not part of `src/`.  Offsets accumulate over the table:
packet type 1 byte, head 2, timestamp 4, year 2, month/day/hour/minute/second 1 each,
class 2, type 2, GUID 16, data size 2. -/
def VSCP_MULTICAST_PACKET0_POS_PKTTYPE : Nat := 0

/-- Head most significant byte position (see `VSCP_MULTICAST_PACKET0_POS_PKTTYPE`). -/
def VSCP_MULTICAST_PACKET0_POS_HEAD_MSB : Nat := 1

/-- Head least significant byte position. -/
def VSCP_MULTICAST_PACKET0_POS_HEAD_LSB : Nat := 2

/-- Timestamp position (4 bytes, big endian). -/
def VSCP_MULTICAST_PACKET0_POS_TIMESTAMP : Nat := 3

/-- Year most significant byte position. -/
def VSCP_MULTICAST_PACKET0_POS_YEAR_MSB : Nat := 7

/-- Year least significant byte position. -/
def VSCP_MULTICAST_PACKET0_POS_YEAR_LSB : Nat := 8

/-- Month position. -/
def VSCP_MULTICAST_PACKET0_POS_MONTH : Nat := 9

/-- Day position. -/
def VSCP_MULTICAST_PACKET0_POS_DAY : Nat := 10

/-- Hour position. -/
def VSCP_MULTICAST_PACKET0_POS_HOUR : Nat := 11

/-- Minute position. -/
def VSCP_MULTICAST_PACKET0_POS_MINUTE : Nat := 12

/-- Second position. -/
def VSCP_MULTICAST_PACKET0_POS_SECOND : Nat := 13

/-- VSCP class most significant byte position. -/
def VSCP_MULTICAST_PACKET0_POS_VSCP_CLASS_MSB : Nat := 14

/-- VSCP class least significant byte position. -/
def VSCP_MULTICAST_PACKET0_POS_VSCP_CLASS_LSB : Nat := 15

/-- VSCP type most significant byte position. -/
def VSCP_MULTICAST_PACKET0_POS_VSCP_TYPE_MSB : Nat := 16

/-- VSCP type least significant byte position. -/
def VSCP_MULTICAST_PACKET0_POS_VSCP_TYPE_LSB : Nat := 17

/-- GUID position (16 bytes). -/
def VSCP_MULTICAST_PACKET0_POS_VSCP_GUID : Nat := 18

/-- Data size most significant byte position. -/
def VSCP_MULTICAST_PACKET0_POS_VSCP_SIZE_MSB : Nat := 34

/-- Data size least significant byte position. -/
def VSCP_MULTICAST_PACKET0_POS_VSCP_SIZE_LSB : Nat := 35

/-- Payload position. -/
def VSCP_MULTICAST_PACKET0_POS_VSCP_DATA : Nat := 36

/-- Modelled from the spec: the fixed header length (everything after the packet-type
byte, up to and excluding the payload): 2+4+2+5+2+2+16+2 = 35 (spec section 6 table).
Imported from the external `vscp` module in the source. -/
def VSCP_MULTICAST_PACKET0_HEADER_LENGTH : Nat := 35

/-- Modelled from the spec: the protocol-defined maximum payload size MAX_DATA
(`VSCP_LEVEL2_MAXDATA` of the external `vscp` module; 512 for VSCP level II).
The claims use it only relationally, so its exact value is not load-bearing. -/
def VSCP_LEVEL2_MAXDATA : Nat := 512

/-- Modelled from the spec: encryption identifier for "no encryption" (spec
section 4.3: identifiers 0/1/2/3). -/
def VSCP_ENCRYPTION_NONE : Nat := 0

/-- Modelled from the spec: encryption identifier for the 128-bit scheme. -/
def VSCP_ENCRYPTION_AES128 : Nat := 1

/-- Modelled from the spec: encryption identifier for the 192-bit scheme. -/
def VSCP_ENCRYPTION_AES192 : Nat := 2

/-- Modelled from the spec: encryption identifier for the 256-bit scheme. -/
def VSCP_ENCRYPTION_AES256 : Nat := 3

/-- Modelled from the spec: the module's embedded default 16-byte key
(`binascii.unhexlify(VSCP_DEFAULT_KEY16)` in the source; the constant lives in the
external `vscp` module).  The exact byte values are not load-bearing for any claim:
what matters is that the key is a fixed module constant. -/
def VSCP_DEFAULT_KEY16 : List Nat :=
  [0xA4, 0xA8, 0x6F, 0x7D, 0x7E, 0x11, 0x9B, 0xA3,
   0xF0, 0xCD, 0x06, 0x88, 0x1E, 0x37, 0x1B, 0x98]

/-- Modelled from the spec: the module's embedded default 24-byte key. -/
def VSCP_DEFAULT_KEY24 : List Nat :=
  VSCP_DEFAULT_KEY16 ++ [0x9B, 0x33, 0xB6, 0xD6, 0x06, 0xA8, 0x63, 0xB6]

/-- Modelled from the spec: the module's embedded default 32-byte key. -/
def VSCP_DEFAULT_KEY32 : List Nat :=
  VSCP_DEFAULT_KEY24 ++ [0x33, 0xEF, 0x52, 0x9D, 0x64, 0x54, 0x4F, 0x8E]

/-- One table entry of the PyCRC `CRCCCITT` table (`init_crc_table` of
`PyCRC/CRCCCITT.py`): eight shift steps with polynomial 0x1021 on the pair
`(crc, c)` starting from `(0, i <<< 8)`. -/
def crcTableEntry (i : Nat) : Nat :=
  ((List.range 8).foldl
    (fun p _ =>
      (if (p.1 ^^^ p.2) &&& 0x8000 ≠ 0 then (p.1 <<< 1) ^^^ 0x1021 else p.1 <<< 1,
       p.2 <<< 1))
    (0, i <<< 8)).1

/-- One update step of `CRCCCITT.calculate`: table lookup on
`((crc >>> 8) ^^^ d) &&& 0xff`, then shift, xor and mask to 16 bits. -/
def crcccittUpdate (crc d : Nat) : Nat :=
  ((crc <<< 8) ^^^ crcTableEntry (((crc >>> 8) ^^^ d) &&& 0xff)) &&& 0xffff

/-- `CRCCCITT(version='FFFF').calculate`: fold the update over the input bytes,
starting register 0xFFFF (CCITT/XModem polynomial 0x1021, no reflection, no xor-out). -/
def crcccittFFFF (input : List Nat) : Nat :=
  input.foldl crcccittUpdate 0xffff

/-- ASCII code of the uppercase hex digit of `d < 16`, as produced by
Python `'{:02X}'.format`. -/
def hexDigitUpper (d : Nat) : Nat :=
  if d < 10 then 48 + d else 55 + d

/-- The four ASCII character codes of the Python-2 text `'\x5cx{:02X}'.format x`:
a literal backslash (92), a literal `x` (120) and the two uppercase hex digits of
the byte `x`.  This is the per-byte piece of the `binstr` the source feeds to the CRC. -/
def escByte (x : Nat) : List Nat :=
  [92, 120, hexDigitUpper (x / 16), hexDigitUpper (x % 16)]

/-- The extended VSCP event (`vscpEventEx` of the external `vscp` module): in ctypes it
carries 16-bit `head`/`year`/`vscpclass`/`vscptype`/`sizedata`, 32-bit `timestamp`,
8-bit date fields, a 16-byte `guid` array and a `data` array. -/
structure vscpEventEx where
  head : Nat
  timestamp : Nat
  year : Nat
  month : Nat
  day : Nat
  hour : Nat
  minute : Nat
  second : Nat
  vscpclass : Nat
  vscptype : Nat
  guid : List Nat
  sizedata : Nat
  data : List Nat
  deriving Repr, DecidableEq

/-- The value of `datetime.datetime.utcnow()`, passed to the embedding as an explicit
argument. -/
structure UtcTime where
  year : Nat
  month : Nat
  day : Nat
  hour : Nat
  minute : Nat
  second : Nat
  deriving Repr, DecidableEq

/-- Shallow embedding of `makeVscpFrame(ptype, e)` of `src/vscpudp/udp.py`.
The `isinstance(e, vscpEventEx)` check is discharged by the type of `e`; the size
check, the buffer of size `1 + HEADER_LENGTH + MAXDATA + 2`, every indexed write
(including the `>>> 8` in the second timestamp byte, the two-element tuples
`(0, 15)` and `(0, e.sizedata)` used as loop ranges for the GUID and the data,
the `1900 + dt.year`, the CRC over the escape text of `frame[1:POS_DATA+13]`, and
the final truncation to `1 + HEADER_LENGTH + 13 + 2` bytes) follows the source
line by line. -/
def makeVscpFrame (ptype : Nat) (e : vscpEventEx) (dt : UtcTime) :
    Except String (List Nat) :=
  if e.sizedata > VSCP_LEVEL2_MAXDATA then
    Except.error "VSCP event has data size that is greater than allowed."
  else
    let frame := List.replicate
      (1 + VSCP_MULTICAST_PACKET0_HEADER_LENGTH + VSCP_LEVEL2_MAXDATA + 2) 0
    let frame := frame.set VSCP_MULTICAST_PACKET0_POS_PKTTYPE ptype
    let frame := frame.set VSCP_MULTICAST_PACKET0_POS_HEAD_MSB ((e.head >>> 8) &&& 0xff)
    let frame := frame.set VSCP_MULTICAST_PACKET0_POS_HEAD_LSB (e.head &&& 0xff)
    let frame := frame.set VSCP_MULTICAST_PACKET0_POS_TIMESTAMP
      ((e.timestamp >>> 24) &&& 0xff)
    let frame := frame.set (VSCP_MULTICAST_PACKET0_POS_TIMESTAMP + 1)
      ((e.timestamp >>> 8) &&& 0xff)
    let frame := frame.set (VSCP_MULTICAST_PACKET0_POS_TIMESTAMP + 2)
      ((e.timestamp >>> 8) &&& 0xff)
    let frame := frame.set (VSCP_MULTICAST_PACKET0_POS_TIMESTAMP + 3)
      (e.timestamp &&& 0xff)
    let frame :=
      if 0 = e.year ∧ 0 = e.month ∧ 0 = e.day ∧ 0 = e.hour ∧ 0 = e.minute ∧ 0 = e.second
      then
        let f := frame.set VSCP_MULTICAST_PACKET0_POS_YEAR_MSB
          (((1900 + dt.year) >>> 8) &&& 0xff)
        let f := f.set VSCP_MULTICAST_PACKET0_POS_YEAR_LSB ((1900 + dt.year) &&& 0xff)
        let f := f.set VSCP_MULTICAST_PACKET0_POS_MONTH dt.month
        let f := f.set VSCP_MULTICAST_PACKET0_POS_DAY dt.day
        let f := f.set VSCP_MULTICAST_PACKET0_POS_HOUR dt.hour
        let f := f.set VSCP_MULTICAST_PACKET0_POS_MINUTE dt.minute
        f.set VSCP_MULTICAST_PACKET0_POS_SECOND dt.second
      else
        let f := frame.set VSCP_MULTICAST_PACKET0_POS_YEAR_MSB ((e.year >>> 8) &&& 0xff)
        let f := f.set VSCP_MULTICAST_PACKET0_POS_YEAR_LSB (e.year &&& 0xff)
        let f := f.set VSCP_MULTICAST_PACKET0_POS_MONTH e.month
        let f := f.set VSCP_MULTICAST_PACKET0_POS_DAY e.day
        let f := f.set VSCP_MULTICAST_PACKET0_POS_HOUR e.hour
        let f := f.set VSCP_MULTICAST_PACKET0_POS_MINUTE e.minute
        f.set VSCP_MULTICAST_PACKET0_POS_SECOND e.second
    let frame := frame.set VSCP_MULTICAST_PACKET0_POS_VSCP_CLASS_MSB
      ((e.vscpclass >>> 8) &&& 0xff)
    let frame := frame.set VSCP_MULTICAST_PACKET0_POS_VSCP_CLASS_LSB
      (e.vscpclass &&& 0xff)
    let frame := frame.set VSCP_MULTICAST_PACKET0_POS_VSCP_TYPE_MSB
      ((e.vscptype >>> 8) &&& 0xff)
    let frame := frame.set VSCP_MULTICAST_PACKET0_POS_VSCP_TYPE_LSB
      (e.vscptype &&& 0xff)
    let frame := frame.set (VSCP_MULTICAST_PACKET0_POS_VSCP_GUID + 0) (e.guid.getD 0 0)
    let frame := frame.set (VSCP_MULTICAST_PACKET0_POS_VSCP_GUID + 15) (e.guid.getD 15 0)
    let frame := frame.set VSCP_MULTICAST_PACKET0_POS_VSCP_SIZE_MSB
      ((e.sizedata >>> 8) &&& 0xff)
    let frame := frame.set VSCP_MULTICAST_PACKET0_POS_VSCP_SIZE_LSB
      (e.sizedata &&& 0xff)
    let frame := frame.set (VSCP_MULTICAST_PACKET0_POS_VSCP_DATA + 0) (e.data.getD 0 0)
    let frame := frame.set (VSCP_MULTICAST_PACKET0_POS_VSCP_DATA + e.sizedata)
      (e.data.getD e.sizedata 0)
    let binstr :=
      ((frame.drop 1).take (VSCP_MULTICAST_PACKET0_POS_VSCP_DATA + 13 - 1)).flatMap escByte
    let framecrc := crcccittFFFF binstr
    let frame := frame.set (1 + VSCP_MULTICAST_PACKET0_HEADER_LENGTH + 13)
      ((framecrc >>> 8) &&& 0xff)
    let frame := frame.set (1 + VSCP_MULTICAST_PACKET0_HEADER_LENGTH + 13 + 1)
      (framecrc &&& 0xff)
    Except.ok (frame.take (1 + VSCP_MULTICAST_PACKET0_HEADER_LENGTH + 13 + 2))

/-- The frame produced by a successful `makeVscpFrame` call (empty list on error);
convenience accessor for inspecting single bytes of concrete frames. -/
def builtFrame (ptype : Nat) (e : vscpEventEx) (dt : UtcTime) : List Nat :=
  (makeVscpFrame ptype e dt).toOption.getD []

/-- The padding loop of `encryptVscpFrame`:
`while (len(frame) - 1) % 16: frame.append(0)`, with explicit fuel.  The guard is
computed over `Int`, because Python's `%` is the floored modulo: at `len(frame) = 0`
Python evaluates `(-1) % 16 = 15` (truthy) and appends one zero byte, so an empty
buffer is padded to `[0]`.  A fuel of 16 always suffices: each iteration grows the
length by one, so the guard reaches 0 after at most 15 appends from a nonempty
buffer and after exactly one append from an empty one (see `padLoop_eq`). -/
def padLoop : Nat → List Nat → List Nat
  | 0, f => f
  | fuel + 1, f =>
    if ((f.length : Int) - 1) % 16 = 0 then f else padLoop fuel (f ++ [0])

/-- The frame after the padding loop of `encryptVscpFrame`. -/
def padFrame (f : List Nat) : List Nat := padLoop 16 f

/-- Shallow embedding of `encryptVscpFrame(frame, encryption)` of
`src/vscpudp/udp.py`.  `cipher key iv plaintext` abstracts
`AES.new(key, AES.MODE_CBC, iv).encrypt(plaintext)` and `iv` abstracts
`Random.new().read(16)`, both external collaborators; the `print` diagnostics are
elided.  The function takes no key argument, exactly like the source: `key` starts
as the default 16-byte key and is reassigned by the `elif` chain, the final `else`
(unrecognised identifier) keeping the AES128 defaults.  The Python function pads
the caller's `frame` in place before encrypting, so the embedding returns the pair
`(result, frame after the call)`. -/
def encryptVscpFrame (cipher : List Nat → List Nat → List Nat → List Nat)
    (iv : List Nat) (frame : List Nat) (encryption : Nat) : List Nat × List Nat :=
  if encryption = VSCP_ENCRYPTION_NONE then
    (frame, frame)
  else
    let key :=
      if encryption = VSCP_ENCRYPTION_AES128 then VSCP_DEFAULT_KEY16
      else if encryption = VSCP_ENCRYPTION_AES192 then VSCP_DEFAULT_KEY24
      else if encryption = VSCP_ENCRYPTION_AES256 then VSCP_DEFAULT_KEY32
      else VSCP_DEFAULT_KEY16
    let prebyte :=
      if encryption = VSCP_ENCRYPTION_AES128 then 1
      else if encryption = VSCP_ENCRYPTION_AES192 then 2
      else if encryption = VSCP_ENCRYPTION_AES256 then 3
      else 1
    let padded := padFrame frame
    (prebyte :: (cipher key iv (padded.drop 1) ++ iv), padded)

/-- A concrete extended event with explicit (non-sentinel) date/time, a GUID of
sixteen 0xAA bytes, timestamp 0x00010000 and three data bytes; used to evaluate the
builder at concrete inputs. -/
def evA : vscpEventEx :=
  { head := 0, timestamp := 65536,
    year := 2020, month := 1, day := 1, hour := 0, minute := 0, second := 0,
    vscpclass := 10, vscptype := 6,
    guid := List.replicate 16 0xAA,
    sizedata := 3, data := [1, 2, 3] }

/-- A concrete extended event whose six date/time fields are all zero (the sentinel
that makes the builder substitute the current UTC time). -/
def evZ : vscpEventEx :=
  { head := 0, timestamp := 0,
    year := 0, month := 0, day := 0, hour := 0, minute := 0, second := 0,
    vscpclass := 10, vscptype := 6,
    guid := List.replicate 16 0,
    sizedata := 0, data := [] }

/-- A concrete extended event whose declared data size exceeds the protocol maximum. -/
def evTooBig : vscpEventEx :=
  { head := 0, timestamp := 0,
    year := 2020, month := 1, day := 1, hour := 0, minute := 0, second := 0,
    vscpclass := 10, vscptype := 6,
    guid := List.replicate 16 0,
    sizedata := VSCP_LEVEL2_MAXDATA + 1, data := List.replicate (VSCP_LEVEL2_MAXDATA + 1) 0 }

/-- A concrete UTC clock reading, standing for the `datetime.datetime.utcnow()` value
at encode time. -/
def nowUtc : UtcTime :=
  { year := 2020, month := 1, day := 1, hour := 0, minute := 0, second := 0 }

/-- Closed form of the padding loop: with enough fuel it appends exactly
`(16 - ((length - 1) mod 16)) mod 16` zero bytes, the modulo taken over `Int`
(Python's floored modulo), so an empty buffer gains exactly one zero byte. -/
theorem padLoop_eq (fuel : Nat) (f : List Nat)
    (h : ((16 - ((f.length : Int) - 1) % 16) % 16).toNat ≤ fuel) :
    padLoop fuel f =
      f ++ List.replicate ((16 - ((f.length : Int) - 1) % 16) % 16).toNat 0 := by
  induction fuel generalizing f with
  | zero =>
    have h0 : ((f.length : Int) - 1) % 16 = 0 := by omega
    have hm : ((16 - ((f.length : Int) - 1) % 16) % 16).toNat = 0 := by omega
    simp [padLoop, h0, hm]
  | succ n ih =>
    by_cases h0 : ((f.length : Int) - 1) % 16 = 0
    · have hm : ((16 - ((f.length : Int) - 1) % 16) % 16).toNat = 0 := by omega
      simp [padLoop, h0, hm]
    · have hrec := ih (f ++ [0]) (by simp only [List.length_append,
        List.length_cons, List.length_nil]; push_cast; omega)
      rw [padLoop, if_neg h0, hrec]
      simp only [List.length_append, List.length_cons, List.length_nil]
      rw [List.append_assoc]
      congr 1
      have hm : ((16 - ((f.length : Int) - 1) % 16) % 16).toNat =
          ((16 - (((f.length : Int) + 1) - 1) % 16) % 16).toNat + 1 := by omega
      push_cast
      rw [hm, List.replicate_succ]
      rfl

/-- The 16 units of fuel in `padFrame` always suffice, so `padFrame` is the loop's
fixed point: the input followed by `(16 - ((length - 1) mod 16)) mod 16` zero
bytes, the modulo taken over `Int`. -/
theorem padFrame_eq (f : List Nat) :
    padFrame f = f ++ List.replicate ((16 - ((f.length : Int) - 1) % 16) % 16).toNat 0 :=
  padLoop_eq 16 f (by omega)

/-- C1: the claim says every accepted frame has length `1 + HEADER_LENGTH + sizeData + 2`
and that the buffer is truncated to that exact length.  The code instead truncates
every frame to the hard-coded length `1 + HEADER_LENGTH + 13 + 2 = 51`: at the
concrete accepted event `evA` (with `sizeData = 3`) the produced frame has length 51,
not `1 + 35 + 3 + 2 = 41`, so ten bytes of unused tail capacity are part of the
output. -/
theorem C1_truncation_hardcoded :
    (makeVscpFrame 0 evA nowUtc).map List.length = Except.ok 51 ∧
    (51 : Nat) ≠ 1 + VSCP_MULTICAST_PACKET0_HEADER_LENGTH + evA.sizedata + 2 :=
  ⟨rfl, by decide⟩

/-- C2: the claim says all 16 GUID bytes are copied verbatim.  The code's loop
`for i in (0, 15)` iterates over the two-element tuple `(0, 15)` only, so at the
concrete event `evA` (GUID all 0xAA) the frame byte at GUID-position + 1 is 0,
not `guid[1] = 0xAA` (byte 0 is copied, byte 1 is not). -/
theorem C2_guid_copy_bug :
    (builtFrame 0 evA nowUtc).getD (VSCP_MULTICAST_PACKET0_POS_VSCP_GUID + 0) 0 = 0xAA ∧
    (builtFrame 0 evA nowUtc).getD (VSCP_MULTICAST_PACKET0_POS_VSCP_GUID + 1) 0 = 0 ∧
    evA.guid.getD 1 0 = 0xAA ∧ (0 : Nat) ≠ 0xAA :=
  ⟨rfl, rfl, rfl, by decide⟩

/-- C3: the claim says the first `sizeData` data bytes are copied verbatim.  The
code's loop `for i in (0, e.sizedata)` iterates over the two-element tuple
`(0, sizedata)` only, so at the concrete event `evA` (`sizeData = 3`,
`data = [1, 2, 3]`) the frame byte at DATA-position + 1 is 0, not `data[1] = 2`. -/
theorem C3_data_copy_bug :
    (builtFrame 0 evA nowUtc).getD (VSCP_MULTICAST_PACKET0_POS_VSCP_DATA + 0) 0 = 1 ∧
    (builtFrame 0 evA nowUtc).getD (VSCP_MULTICAST_PACKET0_POS_VSCP_DATA + 1) 0 = 0 ∧
    evA.data.getD 1 0 = 2 ∧ (0 : Nat) ≠ 2 :=
  ⟨rfl, rfl, rfl, by decide⟩

/-- C4: the claim says the two appended CRC bytes equal the 16-bit CCITT/XModem CRC
(initial register 0xFFFF) of the raw frame bytes from position 1 through the last
payload byte (header + `sizeData` bytes).  The code instead feeds the CRC the ASCII
text of the hex escapes of `frame[1:49]` (four characters per byte, fixed 13-byte
payload window) and stores the result at the fixed offsets 49 and 50: at the
concrete event `evA` the frame's final two bytes are (68, 23), while the CRC of the
raw range the claim names is 31365, whose big-endian bytes are (122, 133). -/
theorem C4_crc_input_bug :
    (builtFrame 0 evA nowUtc).drop 49 = [68, 23] ∧
    crcccittFFFF (((builtFrame 0 evA nowUtc).drop 1).take
        (VSCP_MULTICAST_PACKET0_HEADER_LENGTH + evA.sizedata)) = 31365 ∧
    [(31365 >>> 8) &&& 0xff, 31365 &&& 0xff] = [122, 133] ∧
    ([68, 23] : List Nat) ≠ [122, 133] :=
  ⟨rfl, rfl, rfl, by decide⟩

/-- C5 counterexample: the claim says an unrecognised encryption identifier makes
`encryptVscpFrame` fail closed and return no packet.  At the concrete identifier 99
the code returns a packet, and it is the AES128-fallback packet: with a probe
cipher that returns its key argument, the packet is the AES128 prebyte 1 followed
by the default 16-byte key and the IV. -/
theorem C5_no_fail_closed_cex :
    (encryptVscpFrame (fun k _ _ => k) (List.replicate 16 7) [0x60] 99).1 =
      1 :: (VSCP_DEFAULT_KEY16 ++ List.replicate 16 7) := by
  decide

/-- C5 (amended): for every encryption identifier that is none of the recognised
variants, `encryptVscpFrame` does not fail: it silently falls back to the AES128
scheme, producing exactly the packet it would produce for
`VSCP_ENCRYPTION_AES128` (default 16-byte key, prebyte 1). -/
theorem C5_fallback_aes128 (cipher : List Nat → List Nat → List Nat → List Nat)
    (iv frame : List Nat) (encryption : Nat)
    (h0 : encryption ≠ VSCP_ENCRYPTION_NONE)
    (h1 : encryption ≠ VSCP_ENCRYPTION_AES128)
    (h2 : encryption ≠ VSCP_ENCRYPTION_AES192)
    (h3 : encryption ≠ VSCP_ENCRYPTION_AES256) :
    encryptVscpFrame cipher iv frame encryption =
      encryptVscpFrame cipher iv frame VSCP_ENCRYPTION_AES128 := by
  simp only [VSCP_ENCRYPTION_NONE, VSCP_ENCRYPTION_AES128, VSCP_ENCRYPTION_AES192,
    VSCP_ENCRYPTION_AES256] at h0 h1 h2 h3
  simp [encryptVscpFrame, VSCP_ENCRYPTION_NONE, VSCP_ENCRYPTION_AES128,
    VSCP_ENCRYPTION_AES192, VSCP_ENCRYPTION_AES256, h0, h1, h2, h3]

/-- C5 witness: the fallback theorem applied at the concrete identifier 99. -/
theorem C5_fallback_aes128_witness :
    encryptVscpFrame (fun k _ _ => k) (List.replicate 16 7) [0x60, 0x61] 99 =
      encryptVscpFrame (fun k _ _ => k) (List.replicate 16 7) [0x60, 0x61]
        VSCP_ENCRYPTION_AES128 :=
  C5_fallback_aes128 (fun k _ _ => k) (List.replicate 16 7) [0x60, 0x61] 99
    (by decide) (by decide) (by decide) (by decide)

/-- C6 counterexample: the claim says the caller's frame is never modified.  At the
concrete frame `[0, 0]` (length 2, so `(2 - 1) % 16 ≠ 0`) with the AES128 scheme,
after the call the caller's buffer is no longer `[0, 0]`: it has been padded in
place to length 17. -/
theorem C6_frame_mutated_cex :
    (encryptVscpFrame (fun _ _ p => p) (List.replicate 16 0) [0, 0]
        VSCP_ENCRYPTION_AES128).2 ≠ [0, 0] ∧
    ((encryptVscpFrame (fun _ _ p => p) (List.replicate 16 0) [0, 0]
        VSCP_ENCRYPTION_AES128).2).length = 17 :=
  ⟨by decide, rfl⟩

/-- C6 (amended): for every recognised non-None scheme the call pads the caller's
frame in place: after the call the caller's buffer equals the original bytes
followed by `(16 - ((length - 1) mod 16)) mod 16` trailing zero bytes, the modulo
taken over `Int` as in Python (so the original bytes are preserved as a prefix,
the buffer grows whenever `length - 1` is not a nonnegative multiple of 16 —
including the empty buffer, which gains one zero byte — and is unchanged only
when `length - 1` already is one). -/
theorem C6_pads_frame_in_place (cipher : List Nat → List Nat → List Nat → List Nat)
    (iv frame : List Nat) (encryption : Nat)
    (h : encryption = VSCP_ENCRYPTION_AES128 ∨ encryption = VSCP_ENCRYPTION_AES192 ∨
      encryption = VSCP_ENCRYPTION_AES256) :
    (encryptVscpFrame cipher iv frame encryption).2 =
      frame ++ List.replicate ((16 - ((frame.length : Int) - 1) % 16) % 16).toNat 0 := by
  have hpad := padFrame_eq frame
  rcases h with h | h | h <;> subst h <;>
    simp [encryptVscpFrame, VSCP_ENCRYPTION_NONE, VSCP_ENCRYPTION_AES128,
      VSCP_ENCRYPTION_AES192, VSCP_ENCRYPTION_AES256, hpad]

/-- C6 witness: the padding theorem applied at the concrete frame `[3, 4]` with the
AES128 scheme. -/
theorem C6_pads_frame_in_place_witness :
    (encryptVscpFrame (fun _ _ p => p) (List.replicate 16 0) [3, 4]
        VSCP_ENCRYPTION_AES128).2 =
      [3, 4] ++ List.replicate
        ((16 - ((([3, 4] : List Nat).length : Int) - 1) % 16) % 16).toNat 0 :=
  C6_pads_frame_in_place (fun _ _ p => p) (List.replicate 16 0) [3, 4]
    VSCP_ENCRYPTION_AES128 (Or.inl rfl)

/-- C7: the claim says the four timestamp bytes are
`ts >>> 24, ts >>> 16, ts >>> 8, ts` (each masked to a byte).  The code writes
`(ts >>> 8) &&& 0xff` into the second byte as well as the third: at the concrete
event `evA` (`timestamp = 0x00010000`) the frame byte at timestamp-position + 1
is 0, while the claim requires `(ts >>> 16) &&& 0xff = 1`. -/
theorem C7_timestamp_byte_bug :
    (builtFrame 0 evA nowUtc).getD (VSCP_MULTICAST_PACKET0_POS_TIMESTAMP + 1) 0 = 0 ∧
    (evA.timestamp >>> 16) &&& 0xff = 1 ∧ (0 : Nat) ≠ 1 :=
  ⟨rfl, rfl, by decide⟩

/-- C8: the claim says that when all six date/time fields are zero the current UTC
date/time is substituted with the year written as the full 4-digit value in 16-bit
big-endian.  The code writes `1900 + dt.year`: at the sentinel event `evZ` with the
clock reading 2020-01-01T00:00:00 the frame's year bytes are (15, 80), encoding
3920, while the full 4-digit year 2020 has big-endian bytes (7, 228). -/
theorem C8_sentinel_year_bug :
    (builtFrame 0 evZ nowUtc).getD VSCP_MULTICAST_PACKET0_POS_YEAR_MSB 0 = 15 ∧
    (builtFrame 0 evZ nowUtc).getD VSCP_MULTICAST_PACKET0_POS_YEAR_LSB 0 = 80 ∧
    (nowUtc.year >>> 8) &&& 0xff = 7 ∧ nowUtc.year &&& 0xff = 228 ∧
    ((15 : Nat), (80 : Nat)) ≠ ((7 : Nat), (228 : Nat)) :=
  ⟨rfl, rfl, rfl, rfl, by decide⟩

/-- C9: for every extended event whose declared data size exceeds the protocol
maximum, `makeVscpFrame` fails with the data-too-large error and produces no
frame. -/
theorem C9_data_too_large (ptype : Nat) (e : vscpEventEx) (dt : UtcTime)
    (h : e.sizedata > VSCP_LEVEL2_MAXDATA) :
    makeVscpFrame ptype e dt =
      Except.error "VSCP event has data size that is greater than allowed." := by
  unfold makeVscpFrame
  rw [if_pos h]

/-- C9 witness: the data-too-large theorem applied at the concrete event `evTooBig`
(declared size `MAXDATA + 1 = 513`). -/
theorem C9_data_too_large_witness :
    evTooBig.sizedata > VSCP_LEVEL2_MAXDATA ∧
    makeVscpFrame 0 evTooBig nowUtc =
      Except.error "VSCP event has data size that is greater than allowed." :=
  ⟨by decide, C9_data_too_large 0 evTooBig nowUtc (by decide)⟩

/-- C10: `encryptVscpFrame` takes no key parameter; for every cipher, IV and frame,
the packet for each recognised non-None scheme is the scheme's prebyte followed by
the ciphertext computed with the module's hard-coded default key
(`VSCP_DEFAULT_KEY16`/`24`/`32`) over the padded frame without its packet-type
byte, followed by the IV — so the output is a function of frame, scheme and IV
alone, identical regardless of any externally supplied key configuration. -/
theorem C10_hardcoded_default_keys (cipher : List Nat → List Nat → List Nat → List Nat)
    (iv frame : List Nat) :
    (encryptVscpFrame cipher iv frame VSCP_ENCRYPTION_AES128).1 =
        1 :: (cipher VSCP_DEFAULT_KEY16 iv ((padFrame frame).drop 1) ++ iv) ∧
    (encryptVscpFrame cipher iv frame VSCP_ENCRYPTION_AES192).1 =
        2 :: (cipher VSCP_DEFAULT_KEY24 iv ((padFrame frame).drop 1) ++ iv) ∧
    (encryptVscpFrame cipher iv frame VSCP_ENCRYPTION_AES256).1 =
        3 :: (cipher VSCP_DEFAULT_KEY32 iv ((padFrame frame).drop 1) ++ iv) :=
  ⟨rfl, rfl, rfl⟩

end VscpUdp
